import Mathlib

/-!
Verification development for the Baymaxx invoicing pipeline
(`src/invoicing.py`).  The Python functions relevant to the claims are
shallowly embedded as executable Lean definitions: CSV files become
`List (List String)` (first row the header), rows seen through
`csv.DictReader` become association lists `List (String × String)`
(header names zipped with cell values), the filesystem becomes a map
`String → Option (List (List String))` where `none` marks a file whose
open/parse raises, and Python `int` arithmetic becomes `Int`/`Nat`
arithmetic.  Character-level operations (`.lower()`, `.upper()`,
`.strip()`, `\s`, `\d`) are modelled over the ASCII range, which covers
every header token and date format the program manipulates.
-/

set_option autoImplicit false

namespace Invoicing

/-! ## Character/string primitives shared by the embedding -/

/-- Characters removed by `_norm` / `_normalize_headers`
(`re.sub(r"[\s_\-]+", "", ...)` together with the preceding `.strip()`):
ASCII whitespace, underscore and hyphen. -/
def isHeaderJunk (c : Char) : Bool :=
  c = ' ' || c = '\t' || c = '\n' || c = '\r' || c = '\x0b' || c = '\x0c' || c = '_' || c = '-'

/-- ASCII whitespace as matched by Python `str.strip` / `\s`. -/
def isPySpace (c : Char) : Bool :=
  c = ' ' || c = '\t' || c = '\n' || c = '\r' || c = '\x0b' || c = '\x0c'

/-- `_norm` of `invoicing.py` (also the inline `norm` lambda of
`_date_col_index` and `_normalize_headers`): lowercase and delete
whitespace/underscore/dash. -/
def pyNormHeader (s : String) : String :=
  String.mk ((s.data.filter (fun c => ! isHeaderJunk c)).map Char.toLower)

/-- Python `str.strip()` (ASCII whitespace). -/
def pyStrip (s : String) : String :=
  String.mk (((s.data.dropWhile isPySpace).reverse.dropWhile isPySpace).reverse)

/-- Python `str.rstrip()` (ASCII whitespace). -/
def pyRStrip (s : String) : String :=
  String.mk ((s.data.reverse.dropWhile isPySpace).reverse)

/-- Python `str.upper()` (ASCII). -/
def pyUpper (s : String) : String :=
  String.mk (s.data.map Char.toUpper)

/-- Python `s[-4:]`. -/
def pyLast4 (s : String) : String :=
  String.mk (s.data.drop (s.data.length - 4))

/-- Python `str.endswith` (suffix test). -/
def pyStrEndsWith (s suffix : String) : Bool :=
  suffix.data.isSuffixOf s.data

/-- Python `str.isdigit()` on ASCII strings: nonempty and all digits. -/
def pyIsDigitStr (s : String) : Bool :=
  s ≠ "" && s.data.all Char.isDigit

/-- `_digits_only` / `_clean_phone` digit extraction:
`re.sub(r"\D+", "", s)`. -/
def _digits_only (s : String) : String :=
  String.mk (s.data.filter Char.isDigit)

/-- Numeric value of a digit list (most significant first). -/
def digitsVal (l : List Char) : Nat :=
  l.foldl (fun a c => a * 10 + (c.toNat - 48)) 0

/-! ## `_detect_kind` — CSV kind classification (claims C6, C7) -/

/-- `"numsegments" in normalized or "numofsegments" in normalized`
for the normalized header set of `_detect_kind`. -/
def _has_seg_header (fieldnames : List String) : Bool :=
  (fieldnames.map pyNormHeader).contains "numsegments"
    || (fieldnames.map pyNormHeader).contains "numofsegments"

/-- `"duration" in normalized` for the normalized header set of
`_detect_kind`. -/
def _has_duration_header (fieldnames : List String) : Bool :=
  (fieldnames.map pyNormHeader).contains "duration"

/-- `_detect_kind` of `invoicing.py` (lines 512–530).  The Python `None`
header list is modelled by `[]`, which the guard `if not fieldnames`
treats identically. -/
def _detect_kind (fieldnames : List String) : String :=
  if fieldnames = [] then "unknown"
  else if _has_seg_header fieldnames && ! _has_duration_header fieldnames then "messages"
  else if _has_duration_header fieldnames && ! _has_seg_header fieldnames then "calls"
  else "unknown"

/-- Modelled from the spec: the broader indicator token sets that the
spec claims resolve the kind when neither `duration` nor a
segment-count column is present.  No such fallback exists anywhere in
`src/invoicing.py`; this definition follows the spec's words only, to
be compared with `_detect_kind`. -/
def detect_kind_spec_broad (fieldnames : List String) : String :=
  if _has_seg_header fieldnames && ! _has_duration_header fieldnames then "messages"
  else if _has_duration_header fieldnames && ! _has_seg_header fieldnames then "calls"
  else
    let normalized := fieldnames.map pyNormHeader
    let hasCall := ["starttime", "endtime", "callsid", "answeredby", "callstatus"].any
      (fun t => normalized.contains t)
    let hasMsg := ["sentdate", "messagedate", "smsstatus", "body"].any
      (fun t => normalized.contains t)
    if hasCall && ! hasMsg then "calls"
    else if hasMsg && ! hasCall then "messages"
    else "unknown"

/-! ## Date-cell parsing (claims C3, C8, C10)

`_ym_from_any_date` (used by `check_csv_month_year`) and `_ym_from_cell`
(used by `find_out_of_month_rows` and `count_rows_calls_csv`) both run
exactly the regex search `(\d{4})-(\d{2})-(\d{2})` and return the first
two captured groups; neither attempts an ISO parse or an `MM/DD/YYYY`
fallback. -/

/-- Match the pattern `\d{4}-\d{2}-\d{2}` at the head of a character
list, returning `(year, month, day)`. -/
def matchYMDAt : List Char → Option (Nat × Nat × Nat)
  | a :: b :: c :: d :: '-' :: e :: f :: '-' :: g :: h :: _ =>
    if a.isDigit && b.isDigit && c.isDigit && d.isDigit
        && e.isDigit && f.isDigit && g.isDigit && h.isDigit then
      some (digitsVal [a, b, c, d], digitsVal [e, f], digitsVal [g, h])
    else none
  | _ => none

/-- Leftmost occurrence of `\d{4}-\d{2}-\d{2}` (Python `re.search`). -/
def searchYMD : List Char → Option (Nat × Nat × Nat)
  | [] => none
  | c :: t =>
    match matchYMDAt (c :: t) with
    | some r => some r
    | none => searchYMD t

/-- `_ym_from_any_date` of `invoicing.py` (lines 734–749): first
`YYYY-MM-DD` substring, `(year, month)` only, no validity check. -/
def _ym_from_any_date (s : String) : Option (Nat × Nat) :=
  (searchYMD s.data).map (fun r => (r.1, r.2.1))

/-- `_ym_from_cell` (lines 901–912) runs the identical regex search;
its extra `try: int(...)` never fails on the captured digit groups. -/
def _ym_from_cell (cell : String) : Option (Nat × Nat) :=
  _ym_from_any_date cell

/-! ### The full fallback chain of `_extract_row_datetime`

`_extract_row_datetime` (lines 192–251) is where the spec's ordered
chain actually lives: (a) `datetime.fromisoformat`, (b) a `YYYY-MM-DD`
substring validated via `datetime(y, mo, d)`, (c) `MM/DD/YYYY` or
`M/D/YY` with 2-digit years mapped into the 2000s, validated the same
way.  For `(year, month)` extraction, step (a) on extended-format ISO
strings agrees with step (b) (every such string starts with a valid
`YYYY-MM-DD`), so it is folded into step (b) here; ISO basic format
(`20250531...`) and week dates, which no Twilio export uses, are outside
this model. -/

/-- Gregorian leap year, as `datetime` uses. -/
def isLeapYear (y : Nat) : Bool :=
  (y % 4 = 0 && y % 100 ≠ 0) || y % 400 = 0

/-- Days in a month, as `datetime` uses. -/
def daysInMonth (y m : Nat) : Nat :=
  if m = 2 then (if isLeapYear y then 29 else 28)
  else if m = 4 || m = 6 || m = 9 || m = 11 then 30
  else 31

/-- Whether `datetime(y, mo, d)` succeeds. -/
def isValidDate (y mo d : Nat) : Bool :=
  1 ≤ y && y ≤ 9999 && 1 ≤ mo && mo ≤ 12 && 1 ≤ d && d ≤ daysInMonth y mo

/-- All ways to split off `k` leading digits for `k = hi, hi-1, ..., lo`
(greedy order), as regex `\d{lo,hi}` backtracking tries them. -/
def digitRuns (lo hi : Nat) (l : List Char) : List (Nat × List Char) :=
  (List.range (hi + 1 - lo)).filterMap (fun i =>
    let k := hi - i
    let pre := l.take k
    if pre.length = k && pre.all Char.isDigit then some (digitsVal pre, l.drop k) else none)

/-- Match `(\d{1,2})/(\d{1,2})/(\d{2,4})` at the head of a character
list, with regex backtracking, returning `(month, day, year)`. -/
def matchMDYAt (l : List Char) : Option (Nat × Nat × Nat) :=
  (digitRuns 1 2 l).findSome? (fun mo =>
    match mo.2 with
    | '/' :: r2 =>
      (digitRuns 1 2 r2).findSome? (fun d =>
        match d.2 with
        | '/' :: r4 =>
          (digitRuns 2 4 r4).findSome? (fun y => some (mo.1, d.1, y.1))
        | _ => none)
    | _ => none)

/-- Leftmost occurrence of `(\d{1,2})/(\d{1,2})/(\d{2,4})`. -/
def searchMDY : List Char → Option (Nat × Nat × Nat)
  | [] => none
  | c :: t =>
    match matchMDYAt (c :: t) with
    | some r => some r
    | none => searchMDY t

/-- Step (c) of `_extract_row_datetime`: US-style `MM/DD/YYYY` or
`M/D/YY`, 2-digit years shifted into the 2000s, then validated by
`datetime(y, mo, d)`; an invalid date falls through to `return None`. -/
def mdyStepYM (val : String) : Option (Nat × Nat) :=
  match searchMDY val.data with
  | some (mo, d, y) =>
    let y2 := if y < 100 then y + 2000 else y
    if isValidDate y2 mo d then some (y2, mo) else none
  | none => none

/-- `(year, month)` of the datetime produced by the fallback chain of
`_extract_row_datetime` for a chosen cell value (steps (a)/(b) merged as
documented above, then step (c)). -/
def rowDatetimeChainYM (val : String) : Option (Nat × Nat) :=
  match searchYMD val.data with
  | some (y, mo, d) => if isValidDate y mo d then some (y, mo) else mdyStepYM val
  | none => mdyStepYM val

/-- `_extract_row_datetime` of `invoicing.py`, restricted to the
`(year, month)` of its result: pick the first cell whose normalized
header is in the kind's wanted set and whose value is non-`None` and
nonempty, strip it, then run the fallback chain. -/
def _extract_row_datetime_ym (row : List (String × String)) (kind : String) :
    Option (Nat × Nat) :=
  let wanted : List String :=
    if kind = "calls" then ["starttime", "start", "calldate"]
    else ["sentdate", "date", "messagedate", "senddate", "timestamp"]
  match row.findSome? (fun kv =>
      if wanted.contains (pyNormHeader kv.1) && kv.2 ≠ "" then some kv.2 else none) with
  | none => none
  | some raw =>
    let val := pyStrip raw
    if val = "" then none else rowDatetimeChainYM val

/-! ## `check_csv_month_year` and `find_out_of_month_rows`
(claims C3, C8, C10)

A CSV file on disk is an `Option (List (List String))`: `none` when
opening/parsing raises, otherwise the raw rows, the first being the
header (`next(reader, [])` on an empty file yields `[]`, matching
`List.headD [] []`). -/

/-- The candidate date-column names of `check_csv_month_year` for a
kind (a Python set; only membership is used). -/
def _check_date_candidates (kind : String) : List String :=
  if kind = "messages" then ["sentdate", "date", "timestamp"]
  else if kind = "calls" then ["starttime", "start", "calldate"]
  else []

/-- The date-column choice of `check_csv_month_year`: first header whose
normalization lies in the candidate set. -/
def _check_date_col (headers : List String) (kind : String) : Option Nat :=
  (headers.map pyNormHeader).findIdx? (fun hn => (_check_date_candidates kind).contains hn)

/-- `_date_col_index` of `invoicing.py` (lines 880–896), used by
`find_out_of_month_rows` and `count_rows_calls_csv`: only `sentdate`
(messages) or `starttime` (calls) qualify. -/
def _date_col_index (headers : List String) (kind : String) : Option Nat :=
  let targets : List String :=
    if kind = "messages" then ["sentdate"]
    else if kind = "calls" then ["starttime"]
    else []
  (headers.map pyNormHeader).findIdx? (fun hn => targets.contains hn)

/-- The per-row in-period test shared by `check_csv_month_year`,
`find_out_of_month_rows` and `count_rows_calls_csv`: read
`row[idx]` (empty when the row is short), regex out `(y, m)`, compare
with the target period.  `none` (no `YYYY-MM-DD` substring) counts as
out of period. -/
def _row_in_period (idx year month : Nat) (row : List String) : Bool :=
  match _ym_from_cell (row.getD idx "") with
  | some (y, m) => y = year && m = month
  | none => false

/-- The `{'in': .., 'out': .., 'rows': ..}` stats dict of
`check_csv_month_year`. -/
structure PeriodStats where
  n_in : Nat
  n_out : Nat
  rows : Nat
deriving DecidableEq, Repr

/-- The counting loop of `check_csv_month_year`. -/
def _check_count (idx year month : Nat) : List (List String) → PeriodStats → PeriodStats
  | [], st => st
  | row :: rest, st =>
    if _row_in_period idx year month row then
      _check_count idx year month rest ⟨st.n_in + 1, st.n_out, st.rows + 1⟩
    else
      _check_count idx year month rest ⟨st.n_in, st.n_out + 1, st.rows + 1⟩

/-- `check_csv_month_year` of `invoicing.py` (lines 752–796). -/
def check_csv_month_year (file : Option (List (List String))) (kind : String)
    (year month : Nat) : Bool × PeriodStats :=
  match file with
  | none => (false, ⟨0, 0, 0⟩)
  | some rows =>
    if kind = "messages" ∨ kind = "calls" then
      match _check_date_col (rows.headD []) kind with
      | none => (false, ⟨0, 0, 0⟩)
      | some idx =>
        let st := _check_count idx year month rows.tail ⟨0, 0, 0⟩
        (decide (st.n_out = 0 ∧ 0 < st.rows), st)
    else (false, ⟨0, 0, 0⟩)

/-- `find_out_of_month_rows` of `invoicing.py` (lines 915–948).
`none` (unreadable file) triggers the `except` branch, whose best-effort
reopen fails again, yielding `[]`.  Row numbers are 1-based with the
header as row 1 (`enumerate(reader, start=2)`). -/
def find_out_of_month_rows (file : Option (List (List String))) (kind : String)
    (year month : Nat) : List (Nat × String) :=
  match file with
  | none => []
  | some rows =>
    match _date_col_index (rows.headD []) kind with
    | none => (List.enumFrom 2 rows.tail).map (fun p => (p.1, "date-column-missing"))
    | some ci =>
      (List.enumFrom 2 rows.tail).filterMap (fun p =>
        if _row_in_period ci year month p.2 then none else some (p.1, p.2.getD ci ""))

/-! ## Message segment billing (claim C1)

`_ceil_div2` (lines 1651–1659) and `_extract_num_segments`
(lines 1661–1671).  A `csv.DictReader` row is an association list of
header name → cell value; keys produced by a reader are distinct. -/

/-- Python `int(float(s))` on decimal literals: optional sign, digits
with at most one decimal point, truncated toward zero.  Exponent
notation, `inf`/`nan` and digit-group underscores — which no Twilio
`NumSegments` cell uses — are rejected rather than parsed. -/
def pyIntFloat? (s : String) : Option Int :=
  let t := (s.data.dropWhile isPySpace).reverse.dropWhile isPySpace |>.reverse
  let signed : Bool × List Char :=
    match t with
    | '-' :: r => (true, r)
    | '+' :: r => (false, r)
    | r => (false, r)
  let intPart := signed.2.takeWhile Char.isDigit
  let rest := signed.2.dropWhile Char.isDigit
  let ok : Bool :=
    match rest with
    | [] => intPart ≠ []
    | '.' :: frac => (intPart ≠ [] || frac ≠ []) && frac.all Char.isDigit
    | _ => false
  if ok then
    let n : Int := Int.ofNat (digitsVal intPart)
    some (if signed.1 then -n else n)
  else none

/-- The candidate header spellings probed by `_extract_num_segments`. -/
def segCandidates : List String :=
  ["NumSegments", "Numsegments", "numsegments", "Num_Segments",
   "NumSeg", "Numseg", "Segments", "segments"]

/-- The candidate loop of `_extract_num_segments`: first candidate key
present with a value other than `None`/`""`/`"-"` that parses via
`int(float(...))`; parse failures `continue` to the next candidate. -/
def _seg_parse (row : List (String × String)) : Option Int :=
  segCandidates.findSome? (fun k =>
    match row.lookup k with
    | some v => if v = "" || v = "-" then none else pyIntFloat? v
    | none => none)

/-- `_extract_num_segments`: the loop's result, defaulting to 1. -/
def _extract_num_segments (row : List (String × String)) : Int :=
  (_seg_parse row).getD 1

/-- `_ceil_div2`: its argument always arrives as a Python `int` (the
result of `_extract_num_segments`), on which the `int(float(n))`
round-trip is the identity, so the `except: return 1` branch is dead.
`x <= 0` yields 0; otherwise `(x + 1) // 2`. -/
def _ceil_div2 (x : Int) : Int :=
  if x ≤ 0 then 0 else (x + 1) / 2

/-- The billed units one messages row contributes inside
`_sum_billed_units_by_site` (line 1697): `_ceil_div2` of
`_extract_num_segments`. -/
def rowBilledUnits (row : List (String × String)) : Int :=
  _ceil_div2 (_extract_num_segments row)

/-! ## Aggregation over the filesystem (claims C2, C4)

The filesystem maps a path to `some rows` when the CSV opens and parses,
and to `none` when opening raises (missing file, I/O error, parse
failure at open time). -/

/-- A batch's view of the disk. -/
def FileSystem : Type := String → Option (List (List String))

/-- Python `Path(p).stem`: final path component without its last
extension.  (Windows separators and a trailing-dot component are outside
this model; no claim exercises them.) -/
def pathStem (p : String) : String :=
  let name := (p.splitOn "/").getLastD p
  let parts := name.splitOn "."
  if parts.length ≤ 1 then name
  else if parts.headD "" = "" && parts.length = 2 then name
  else String.intercalate "." parts.dropLast

/-- Python `site_name or Path(csv_path).stem`: `None` and the empty
string are both falsy and fall back to the filename stem. -/
def siteLabel (site : Option String) (path : String) : String :=
  match site with
  | some s => if s = "" then pathStem path else s
  | none => pathStem path

/-- `count_rows_calls_csv` of `invoicing.py` (lines 978–1001).  The
function has no `try`, so an unreadable file raises out of it, which the
embedding reports as `Except.error ()`. -/
def count_rows_calls_csv (fs : FileSystem) (path : String)
    (filter_year filter_month : Option Nat) : Except Unit Int :=
  match fs path with
  | none => Except.error ()
  | some content =>
    match filter_year, filter_month with
    | some fy, some fm =>
      match _date_col_index (content.headD []) "calls" with
      | none => Except.ok 0
      | some ci =>
        Except.ok (content.tail.foldl
          (fun n row => if _row_in_period ci fy fm row then n + 1 else n) (0 : Int))
    | _, _ => Except.ok (content.tail.length : Int)

/-- Python dict accumulation `d[k] = d.get(k, 0) + v` (also
`defaultdict(int)`'s `d[k] += v`): update in place, new keys appended in
insertion order. -/
def bumpAssoc (m : List (String × Int)) (k : String) (v : Int) : List (String × Int) :=
  match m with
  | [] => [(k, v)]
  | kv :: t => if kv.1 = k then (kv.1, kv.2 + v) :: t else kv :: bumpAssoc t k v

/-- Python truthiness of the optional year/month in
`aggregate_voice_items_from_csvs`'s `if (year and month)`. -/
def voiceTruthy (o : Option Nat) : Bool :=
  match o with
  | some n => n ≠ 0
  | none => false

/-- The per-file loop of `aggregate_voice_items_from_csvs`
(lines 1025–1035): count each file (filtered only when both year and
month are truthy), label it by its site name or filename stem, and
accumulate.  An exception from `count_rows_calls_csv` propagates — there
is no `try` in this loop either. -/
def voiceAccum (fs : FileSystem) (year month : Option Nat) :
    List (String × Option String) → List (String × Int) → Except Unit (List (String × Int))
  | [], acc => Except.ok acc
  | (path, site) :: rest, acc =>
    match (if voiceTruthy year && voiceTruthy month
            then count_rows_calls_csv fs path year month
            else count_rows_calls_csv fs path none none) with
    | Except.error e => Except.error e
    | Except.ok qty =>
      voiceAccum fs year month rest (bumpAssoc acc (siteLabel site path) qty)

/-- A line item as far as the ordering/quantity claims reach:
description and quantity (`unit_price` is a constant pass-through float
not involved in any claim). -/
structure LineItem where
  description : String
  qty : Int
deriving DecidableEq, Repr

/-- `build_voice_line_item` of `invoicing.py` (lines 1003–1020),
description logic. -/
def build_voice_line_item (site_name : Option String) (qty : Int) : LineItem :=
  let base := pyStrip (site_name.getD "")
  if pyStrEndsWith (pyUpper base) "VOICE" then ⟨base, qty⟩
  else if base ≠ "" then ⟨base ++ " Voice", qty⟩
  else ⟨"Voice", qty⟩

/-- Python string `<=`: lexicographic on code points. -/
def charListLe : List Char → List Char → Bool
  | [], _ => true
  | _ :: _, [] => false
  | a :: s, b :: t =>
    if a.toNat = b.toNat then charListLe s t else decide (a.toNat < b.toNat)

/-- The key order `sorted` uses on the aggregated maps. -/
def keyLe (a b : String × Int) : Prop :=
  charListLe a.1.data b.1.data = true

instance (a b : String × Int) : Decidable (keyLe a b) :=
  inferInstanceAs (Decidable (charListLe a.1.data b.1.data = true))

/-- Python `sorted` on `dict.items()` by key (code-point comparison; the
accumulated dicts have distinct keys, so comparing the rest of the tuple
never happens and stability is moot). -/
def sortByKey (l : List (String × Int)) : List (String × Int) :=
  List.insertionSort keyLe l

/-- `aggregate_voice_items_from_csvs` of `invoicing.py`
(lines 1025–1035): accumulate counts by label, then emit one
`build_voice_line_item` per label — zero quantities included — in
sorted label order (the sort key `(kv[0] or "",)` is the label itself;
`site_key or None` turns an empty label back into `None`). -/
def aggregate_voice_items_from_csvs (fs : FileSystem) (files : List (String × Option String))
    (year month : Option Nat) : Except Unit (List LineItem) :=
  match voiceAccum fs year month files [] with
  | Except.error e => Except.error e
  | Except.ok by_site =>
    Except.ok ((sortByKey by_site).map (fun kv =>
      build_voice_line_item (if kv.1 = "" then none else some kv.1) kv.2))

/-- The per-row loop of `_sum_billed_units_by_site` over one open
messages CSV: `csv.DictReader` rows are the header zipped with each raw
row; rows outside the target period (or with no parseable date) are
skipped, the rest contribute `_ceil_div2(_extract_num_segments(row))`
to their site's total. -/
def msgFileFold (site : String) (headers : List String) (year month : Nat) :
    List (List String) → List (String × Int) → List (String × Int)
  | [], totals => totals
  | raw :: rest, totals =>
    let row := headers.zip raw
    match _extract_row_datetime_ym row "messages" with
    | some ym =>
      if ym.1 = year && ym.2 = month then
        msgFileFold site headers year month rest
          (bumpAssoc totals site (_ceil_div2 (_extract_num_segments row)))
      else msgFileFold site headers year month rest totals
    | none => msgFileFold site headers year month rest totals

/-- The per-file loop of `_sum_billed_units_by_site` (lines 1673–1701):
the whole open-and-read of each file sits in a `try` whose `except`
swallows the failure, so an unreadable file contributes nothing and the
loop continues. -/
def msgAccum (fs : FileSystem) (year month : Nat) :
    List (String × Option String) → List (String × Int) → List (String × Int)
  | [], totals => totals
  | (path, site) :: rest, totals =>
    match fs path with
    | none => msgAccum fs year month rest totals
    | some content =>
      msgAccum fs year month rest
        (msgFileFold (siteLabel site path) (content.headD []) year month
          content.tail totals)

/-- `_sum_billed_units_by_site` of `invoicing.py` (lines 1673–1701). -/
def _sum_billed_units_by_site (fs : FileSystem) (files : List (String × Option String))
    (year month : Nat) : List (String × Int) :=
  msgAccum fs year month files []

/-- The body of `add_message_items_to_invoice`'s emission loop
(lines 1703–1744) for one `(site, qty)` pair: skip non-positive
quantities, avoid doubling a trailing SMS token, else append " SMS". -/
def mkMsgItem (kv : String × Int) : Option LineItem :=
  if kv.2 ≤ 0 then none
  else
    let base := pyStrip kv.1
    if pyStrEndsWith (pyUpper base) "SMS" then some ⟨base, kv.2⟩
    else if base ≠ "" then some ⟨base ++ " SMS", kv.2⟩
    else some ⟨"SMS", kv.2⟩

/-- `add_message_items_to_invoice` of `invoicing.py` (lines 1703–1744),
as the sequence of line items it appends to the invoice (the in-place
invoice mutation and totals recomputation carry no claim content):
`sorted(billed.items())` then one item per positive-quantity site. -/
def add_message_items_to_invoice (fs : FileSystem) (files : List (String × Option String))
    (year month : Nat) : List LineItem :=
  (sortByKey (_sum_billed_units_by_site fs files year month)).filterMap mkMsgItem

/-- A disk on which every open raises. -/
def fsAllUnreadable : FileSystem := fun _ => none

/-- A disk with one header-only calls CSV. -/
def fsVoiceHeaderOnly : FileSystem := fun p =>
  if p = "a.csv" then some [["StartTime"]] else none

/-- A disk with one single-row calls CSV (May 2025). -/
def fsVoiceOneRow : FileSystem := fun p =>
  if p = "a.csv" then some [["StartTime"], ["2025-05-01"]] else none

/-- A disk with one messages CSV (one 3-segment row in May 2025) and one
unreadable path. -/
def fsMsgOneRow : FileSystem := fun p =>
  if p = "m.csv" then some [["SentDate", "NumSegments"], ["2025-05-02", "3"]] else none

/-! ## Registry matching by last-4 phone digits (claim C5)

The clients document `{"clients": [client {divisions: [division
{sites: [site {name, phone}]}]}]}` is embedded structurally; the id
fields the breadcrumb copies verbatim carry no claim content and are
omitted. -/

/-- A registry site. -/
structure Site where
  name : String
  phone : String
deriving DecidableEq, Repr

/-- A registry division. -/
structure Division where
  name : String
  sites : List Site
deriving DecidableEq, Repr

/-- A registry client. -/
structure Client where
  name : String
  divisions : List Division
deriving DecidableEq, Repr

/-- The breadcrumb dict `_match_site_by_last4` returns. -/
structure Crumb where
  client_name : String
  division_name : String
  site_name : String
  site_phone : String
  matched_last4 : String
deriving DecidableEq, Repr

/-- `_match_site_by_last4` of `invoicing.py` (lines 681–714): first site
in client → division → site traversal order whose digit-normalized phone
ends with the last 4 characters of the (already digit-normalized)
identifier; empty identifiers never match. -/
def _match_site_by_last4 (clients_doc : List Client) (phone_digits : String) :
    Option Crumb :=
  if phone_digits = "" then none
  else
    let last4 := pyLast4 phone_digits
    clients_doc.findSome? (fun c =>
      c.divisions.findSome? (fun d =>
        d.sites.findSome? (fun s =>
          if pyStrEndsWith (_digits_only s.phone) last4 then
            some ⟨c.name, d.name, s.name, _digits_only s.phone, last4⟩
          else none)))

/-- The registry's client → division → site traversal, flattened in
order, with each site's breadcrumb for a given last-4. -/
def crumbsOf (clients_doc : List Client) (last4 : String) : List Crumb :=
  clients_doc.flatMap (fun c =>
    c.divisions.flatMap (fun d =>
      d.sites.map (fun s => ⟨c.name, d.name, s.name, _digits_only s.phone, last4⟩)))

/-! ## Description decoration (claim C9)

`decorate_with_last4_kind` (lines 1403–1456) and its helpers.  The
invoice dict is embedded by the two inputs the phone-map chain actually
reads: the `site_phones` mapping (absent or not-a-dict modelled as
`none`) and the on-disk `data/clients.json` (absent/unreadable modelled
as `none`). -/

/-- The inputs `decorate_with_last4_kind` reads from the invoice and
the disk. -/
structure Inv where
  site_phones : Option (List (String × String))
  clients_file : Option (List Client)

/-- An invoice with no site phones and no readable clients.json. -/
def invEmpty : Inv := ⟨none, none⟩

/-- Python dict assignment `d[k] = v`: overwrite in place, new keys
appended in insertion order. -/
def assocSet (m : List (String × String)) (k v : String) : List (String × String) :=
  match m with
  | [] => [(k, v)]
  | kv :: t => if kv.1 = k then (kv.1, v) :: t else kv :: assocSet t k v

/-- Python `d.setdefault(k, v)`: keep an existing entry, else append. -/
def assocSetdefault (m : List (String × String)) (k v : String) : List (String × String) :=
  match m with
  | [] => [(k, v)]
  | kv :: t => if kv.1 = k then kv :: t else kv :: assocSetdefault t k v

/-- `re.sub(r"\s+", " ", u)`: collapse each whitespace run to one
space. -/
def collapseWS (l : List Char) : List Char :=
  l.foldr (fun c acc =>
    if isPySpace c then
      match acc with
      | ' ' :: t => ' ' :: t
      | _ => ' ' :: acc
    else c :: acc) []

/-- `_normalize_site_key` of `invoicing.py` — the last of its three
definitions (line 1092) wins at import time: uppercase, strip, em/en
dash to hyphen, collapse whitespace. -/
def _normalize_site_key (name : String) : String :=
  let u := pyStrip (pyUpper name)
  let u := String.mk (u.data.map (fun c => if c = '—' || c = '–' then '-' else c))
  String.mk (collapseWS u.data)

/-- `_build_priority_phone_map` of `invoicing.py` — the last of its
three definitions (line 1099) wins: 4-digit values from
`inv['site_phones']` under normalized keys, then 4-digit site phones
from `data/clients.json` via `setdefault`. -/
def _build_priority_phone_map (inv : Inv) : List (String × String) :=
  let phones := (inv.site_phones.getD []).foldl (fun ph kv =>
    if pyIsDigitStr kv.2 && kv.2.data.length = 4 then
      assocSet ph (_normalize_site_key kv.1) kv.2
    else ph) []
  match inv.clients_file with
  | none => phones
  | some clients =>
    clients.foldl (fun ph c =>
      c.divisions.foldl (fun ph d =>
        d.sites.foldl (fun ph s =>
          let n := pyStrip s.name
          let p := pyStrip s.phone
          if n ≠ "" && (pyIsDigitStr p && p.data.length = 4) then
            assocSetdefault ph (_normalize_site_key n) p
          else ph) ph) ph) phones

/-- `_phones_map_from_inv` (lines 1385–1401): re-key
`_build_priority_phone_map` to last-4 values, falling back to the raw
`site_phones` dict when that yields nothing. -/
def _phones_map_from_inv (inv : Inv) : List (String × String) :=
  let phones := (_build_priority_phone_map inv).foldl (fun ph kv =>
    if kv.1 ≠ "" then assocSet ph kv.1 (pyLast4 kv.2) else ph) []
  if phones = [] then
    match inv.site_phones with
    | some sp => sp.foldl (fun ph kv =>
        if kv.1 ≠ "" && kv.2 ≠ "" then assocSet ph kv.1 (pyLast4 kv.2) else ph) []
    | none => []
  else phones

/-- `re.search(r"\(-\d{3,4}\)\s*$", desc)`: after trailing whitespace,
the string ends in a close paren preceded by a run of 3 or 4 digits
preceded by the literal characters of an open paren and a hyphen.
(A run of 5 or more digits adjacent to the close paren cannot match,
since the character before any 4-digit window would be a digit rather
than the required hyphen.) -/
def hasDecorSuffix (desc : String) : Bool :=
  match desc.data.reverse.dropWhile isPySpace with
  | ')' :: rest =>
    let ds := rest.takeWhile Char.isDigit
    (3 ≤ ds.length && ds.length ≤ 4) &&
      (match rest.drop ds.length with
       | '-' :: '(' :: _ => true
       | _ => false)
  | _ => false

/-- The trailing-junk variants stripped by `_infer_kind_and_base`. -/
def tailsList : List String :=
  [" — Voice", " — VOICE", " – Voice", " – VOICE", " - Voice", " - VOICE",
   " — Sms", " — SMS", " – Sms", " – SMS", " - Sms", " - SMS"]

/-- One pass of the `while changed` loop of `_infer_kind_and_base`:
try every tail in order on the evolving string. -/
def stripTailsStep (s : String) : String × Bool :=
  tailsList.foldl (fun acc suf =>
    if pyStrEndsWith acc.1 suf then (pyRStrip (acc.1.dropRight suf.length), true)
    else acc) (s, false)

/-- The `while changed` loop, fuelled: every changed pass removes at
least one character, so `s.length + 1` passes always reach the
fixpoint the Python loop reaches. -/
def stripTailsFuel : Nat → String → String
  | 0, s => s
  | fuel + 1, s =>
    let p := stripTailsStep s
    if p.2 then stripTailsFuel fuel p.1 else s

/-- The tail-stripping loop of `_infer_kind_and_base`. -/
def stripTails (s : String) : String :=
  stripTailsFuel (s.length + 1) s

/-- `_infer_kind_and_base` (lines 1361–1383): strip, remove dash-kind
tails, then split off a trailing `SMS`/`VOICE` token. -/
def _infer_kind_and_base (desc : String) : Option String × String :=
  let s := stripTails (pyStrip desc)
  let up := pyUpper s
  if pyStrEndsWith up " SMS" then (some "SMS", pyRStrip (s.dropRight 3))
  else if pyStrEndsWith up " VOICE" then (some "VOICE", pyRStrip (s.dropRight 5))
  else (none, s)

/-- Python substring containment `needle in hay`. -/
def pySubstr (needle hay : List Char) : Bool :=
  match hay with
  | [] => needle.isEmpty
  | _ :: t => needle.isPrefixOf hay || pySubstr needle t

/-- The longest-substring fallback of `decorate_with_last4_kind`:
first key (insertion order) of maximal uppercase length whose uppercase
form contains or is contained in the target. -/
def bestSubstrKey (phones : List (String × String)) (target : String) : Option String :=
  (phones.foldl (fun (best : Option String × Int) kv =>
    let ku := pyUpper kv.1
    if pySubstr ku.data target.data || pySubstr target.data ku.data then
      (if (ku.data.length : Int) > best.2 then (some kv.1, (ku.data.length : Int)) else best)
    else best) (none, -1)).1

/-- `decorate_with_last4_kind` of `invoicing.py` (lines 1403–1456).
The `not isinstance(desc, str)` escape is outside a typed embedding;
everything else is translated clause by clause. -/
def decorate_with_last4_kind (inv : Inv) (desc : String) : String :=
  if pyStrip desc = "" then desc
  else if hasDecorSuffix desc then desc
  else
    let kb := _infer_kind_and_base desc
    let base := kb.2
    if base = "" then desc
    else if (pyUpper base = "VOICE" || pyUpper base = "SMS")
        && ! (pyStrip base).data.contains ' ' then desc
    else
      let phones := _phones_map_from_inv inv
      let keys := (match kb.1 with
        | some k => [base ++ " " ++ k]
        | none => []) ++ [base]
      match keys.findSome? (fun key =>
          match phones.lookup key with
          | some l4 => if l4 ≠ "" then some l4 else none
          | none => none) with
      | some last4 => base ++ " (-" ++ pyLast4 last4 ++ ")"
      | none =>
        let target := pyUpper (match kb.1 with
          | some k => base ++ " " ++ k
          | none => base)
        match bestSubstrKey phones target with
        | some bk =>
          if bk ≠ "" then
            match phones.lookup bk with
            | some v => if v ≠ "" then base ++ " (-" ++ pyLast4 v ++ ")" else base
            | none => base
          else base
        | none => base

theorem charListLe_total : ∀ s t : List Char, charListLe s t = true ∨ charListLe t s = true := by
  intro s
  induction s with
  | nil => intro t; left; rfl
  | cons a s ih =>
    intro t
    cases t with
    | nil => right; rfl
    | cons b t =>
      simp only [charListLe]
      by_cases hab : a.toNat = b.toNat
      · rw [if_pos hab, if_pos hab.symm]
        exact ih t
      · rw [if_neg hab, if_neg (fun h => hab (Eq.symm h))]
        simp only [decide_eq_true_eq]
        omega

theorem charListLe_trans : ∀ s t u : List Char,
    charListLe s t = true → charListLe t u = true → charListLe s u = true := by
  intro s
  induction s with
  | nil => intro t u _ _; rfl
  | cons a s ih =>
    intro t u hst htu
    cases t with
    | nil => simp [charListLe] at hst
    | cons b t =>
      cases u with
      | nil => simp [charListLe] at htu
      | cons c u =>
        simp only [charListLe] at hst htu ⊢
        by_cases hab : a.toNat = b.toNat
        · rw [if_pos hab] at hst
          by_cases hbc : b.toNat = c.toNat
          · rw [if_pos hbc] at htu
            rw [if_pos (hab.trans hbc)]
            exact ih t u hst htu
          · rw [if_neg hbc, decide_eq_true_eq] at htu
            rw [if_neg (show ¬ a.toNat = c.toNat by omega), decide_eq_true_eq]
            omega
        · rw [if_neg hab, decide_eq_true_eq] at hst
          by_cases hbc : b.toNat = c.toNat
          · rw [if_neg (show ¬ a.toNat = c.toNat by omega), decide_eq_true_eq]
            omega
          · rw [if_neg hbc, decide_eq_true_eq] at htu
            rw [if_neg (show ¬ a.toNat = c.toNat by omega), decide_eq_true_eq]
            omega

instance : IsTotal (String × Int) keyLe :=
  ⟨fun a b => charListLe_total a.1.data b.1.data⟩

instance : IsTrans (String × Int) keyLe :=
  ⟨fun a b c => charListLe_trans a.1.data b.1.data c.1.data⟩

end Invoicing

namespace Invoicing

/-- C6: a `duration` header without a segment-count header classifies the
file as calls, the reverse as messages, both or neither as unknown, and
the empty/absent header list as unknown.  `_detect_kind` is a total pure
Lean function, so classification cannot raise and depends only on the
header list. -/
theorem c6_detect_kind_explicit (hs : List String) :
    (_has_duration_header hs = true → _has_seg_header hs = false → _detect_kind hs = "calls")
    ∧ (_has_seg_header hs = true → _has_duration_header hs = false → _detect_kind hs = "messages")
    ∧ (_has_duration_header hs = _has_seg_header hs → _detect_kind hs = "unknown")
    ∧ _detect_kind [] = "unknown" := by
  refine ⟨?_, ?_, ?_, rfl⟩
  · intro hd hseg
    cases hs with
    | nil => simp [_has_duration_header] at hd
    | cons a t => simp [_detect_kind, hd, hseg]
  · intro hseg hd
    cases hs with
    | nil => simp [_has_seg_header] at hseg
    | cons a t => simp [_detect_kind, hd, hseg]
  · intro heq
    cases hs with
    | nil => rfl
    | cons a t =>
      cases hd : _has_duration_header (a :: t) <;>
        rw [hd] at heq <;>
        simp [_detect_kind, hd, ← heq]

/-- Witness for C6 at concrete header lists. -/
theorem c6_detect_kind_explicit_witness :
    _detect_kind ["Duration"] = "calls"
    ∧ _detect_kind ["NumSegments"] = "messages"
    ∧ _detect_kind ["Duration", "NumSegments"] = "unknown"
    ∧ _detect_kind ["Foo"] = "unknown" :=
  ⟨(c6_detect_kind_explicit ["Duration"]).1 (by decide) (by decide),
   (c6_detect_kind_explicit ["NumSegments"]).2.1 (by decide) (by decide),
   (c6_detect_kind_explicit ["Duration", "NumSegments"]).2.2.1 (by decide),
   (c6_detect_kind_explicit ["Foo"]).2.2.1 (by decide)⟩

/-- C7 counterexample: the header list `["StartTime"]` carries a
call-indicator token and no duration/segment column, so the spec's
broader-token fallback would classify it as calls, but `_detect_kind`
has no such fallback and returns unknown. -/
theorem c7_counterexample_no_broad_fallback :
    _detect_kind ["StartTime"] = "unknown"
    ∧ detect_kind_spec_broad ["StartTime"] = "calls"
    ∧ _detect_kind ["StartTime"] ≠ detect_kind_spec_broad ["StartTime"] := by
  refine ⟨by decide, by decide, by decide⟩

/-- C7 amended: when neither a `duration` token nor a
`numsegments`/`numofsegments` token is present, `_detect_kind` returns
`"unknown"` unconditionally — the broader indicator token sets of the
spec are never consulted. -/
theorem c7_amended_no_tokens_unknown (hs : List String)
    (hd : _has_duration_header hs = false) (hseg : _has_seg_header hs = false) :
    _detect_kind hs = "unknown" := by
  cases hs with
  | nil => rfl
  | cons a t => simp [_detect_kind, hd, hseg]

/-- Witness for the amended C7: a header list whose only token is a
call-indicator one. -/
theorem c7_amended_no_tokens_unknown_witness :
    _has_duration_header ["StartTime", "CallSid"] = false
    ∧ _has_seg_header ["StartTime", "CallSid"] = false
    ∧ _detect_kind ["StartTime", "CallSid"] = "unknown" :=
  ⟨by decide, by decide,
   c7_amended_no_tokens_unknown ["StartTime", "CallSid"] (by decide) (by decide)⟩

/-! ## Claims C10, C8, C3 — period checking -/

/-- Helper: complementary `countP`s sum to the length. -/
theorem countP_add_countP_not {α : Type} (p : α → Bool) (l : List α) :
    l.countP p + l.countP (fun a => ! p a) = l.length := by
  induction l with
  | nil => rfl
  | cons a t ih => by_cases h : p a <;> simp [List.countP_cons, h, ← ih] <;> omega

/-- Helper: the counting loop of `check_csv_month_year` computes the
in/out `countP`s and the length on top of its accumulator. -/
theorem check_count_eq (idx year month : Nat) (l : List (List String)) (st : PeriodStats) :
    _check_count idx year month l st =
      ⟨st.n_in + l.countP (_row_in_period idx year month),
       st.n_out + l.countP (fun r => ! _row_in_period idx year month r),
       st.rows + l.length⟩ := by
  induction l generalizing st with
  | nil => simp [_check_count]
  | cons r t ih =>
    by_cases hr : _row_in_period idx year month r <;>
      simp [_check_count, hr, ih, List.countP_cons, PeriodStats.mk.injEq] <;> omega

/-- Helper: length of the out-of-period rows collected by
`find_out_of_month_rows` over an enumerated tail. -/
theorem find_filterMap_length (ci year month : Nat) (l : List (List String)) (k : Nat) :
    ((List.enumFrom k l).filterMap (fun p =>
        if _row_in_period ci year month p.2 then none
        else some (p.1, p.2.getD ci ""))).length
      = l.countP (fun r => ! _row_in_period ci year month r) := by
  induction l generalizing k with
  | nil => simp
  | cons r t ih =>
    by_cases hr : _row_in_period ci year month r <;>
      simpa [List.enumFrom, hr, List.countP_cons] using ih (k + 1)

/-- C10: a CSV with zero data rows never validates as within-period:
`check_csv_month_year` returns `all_ok = False` (its success condition
demands `n_out == 0 and n_total > 0`) while the out-of-period count in
its stats is 0. -/
theorem c10_empty_csv_never_ok (rows : List (List String)) (kind : String)
    (year month : Nat) (h : rows.tail = []) :
    (check_csv_month_year (some rows) kind year month).1 = false
    ∧ (check_csv_month_year (some rows) kind year month).2.n_out = 0 := by
  unfold check_csv_month_year
  by_cases hk : kind = "messages" ∨ kind = "calls"
  · simp only [if_pos hk]
    cases hc : _check_date_col (rows.headD []) kind with
    | none => exact ⟨rfl, rfl⟩
    | some idx => simp [h, _check_count]
  · simp [if_neg hk]

/-- Witness for C10: a header-only messages CSV. -/
theorem c10_empty_csv_never_ok_witness :
    ([["SentDate"]] : List (List String)).tail = []
    ∧ (check_csv_month_year (some [["SentDate"]]) "messages" 2025 5).1 = false
    ∧ (check_csv_month_year (some [["SentDate"]]) "messages" 2025 5).2.n_out = 0 :=
  ⟨rfl, (c10_empty_csv_never_ok [["SentDate"]] "messages" 2025 5 rfl).1,
   (c10_empty_csv_never_ok [["SentDate"]] "messages" 2025 5 rfl).2⟩

/-- C8 counterexample: a calls CSV whose date column is named
`CallDate`.  `check_csv_month_year` accepts that header (its candidate
set contains `calldate`) and reports 1 in-period row, 0 out-of-period
rows — so N = 1 and M = 0 — yet `find_out_of_month_rows`, whose target
set is only `starttime`, finds no date column and returns one
`date-column-missing` entry instead of exactly M = 0 entries. -/
theorem c8_counterexample_column_mismatch :
    check_csv_month_year (some [["CallDate"], ["2025-05-01"]]) "calls" 2025 5
      = (true, ⟨1, 0, 1⟩)
    ∧ find_out_of_month_rows (some [["CallDate"], ["2025-05-01"]]) "calls" 2025 5
      = [(2, "date-column-missing")]
    ∧ (find_out_of_month_rows (some [["CallDate"], ["2025-05-01"]]) "calls" 2025 5).length
      ≠ (check_csv_month_year (some [["CallDate"], ["2025-05-01"]]) "calls" 2025 5).2.n_out := by
  refine ⟨by decide, by decide, by decide⟩

/-- C8 amended: when the two operations select the *same* date column
(index `ci`), the round-trip holds: with N the in-period data rows and
M the out-of-period ones (judged by the shared per-row test),
`find_out_of_month_rows` returns exactly M `(row-number, cell)` entries,
numbered 1-based with the header as row 1 (first data row 2), and
`check_csv_month_year` reports `{in: N, out: M, rows: N + M}` with
success exactly when `M = 0` and at least one data row exists. -/
theorem c8_amended_roundtrip (rows : List (List String)) (kind : String)
    (year month ci : Nat) (hk : kind = "messages" ∨ kind = "calls")
    (hfind : _date_col_index (rows.headD []) kind = some ci)
    (hcheck : _check_date_col (rows.headD []) kind = some ci) :
    (find_out_of_month_rows (some rows) kind year month).length
      = rows.tail.countP (fun r => ! _row_in_period ci year month r)
    ∧ find_out_of_month_rows (some rows) kind year month
      = (List.enumFrom 2 rows.tail).filterMap (fun p =>
          if _row_in_period ci year month p.2 then none
          else some (p.1, p.2.getD ci ""))
    ∧ check_csv_month_year (some rows) kind year month
      = (decide (rows.tail.countP (fun r => ! _row_in_period ci year month r) = 0
            ∧ 0 < rows.tail.length),
         ⟨rows.tail.countP (_row_in_period ci year month),
          rows.tail.countP (fun r => ! _row_in_period ci year month r),
          rows.tail.length⟩)
    ∧ rows.tail.countP (_row_in_period ci year month)
        + rows.tail.countP (fun r => ! _row_in_period ci year month r)
      = rows.tail.length := by
  refine ⟨?_, ?_, ?_, countP_add_countP_not _ _⟩
  · simp only [find_out_of_month_rows, hfind]
    exact find_filterMap_length ci year month rows.tail 2
  · simp only [find_out_of_month_rows, hfind]
  · simp only [check_csv_month_year, if_pos hk, hcheck]
    simp [check_count_eq]

/-- Witness for the amended C8: a calls CSV with a `StartTime` column
(chosen by both operations), one in-period row and one out-of-period
row. -/
theorem c8_amended_roundtrip_witness :
    (find_out_of_month_rows (some [["StartTime"], ["2025-05-01"], ["2025-06-01"]])
        "calls" 2025 5).length
      = ([["2025-05-01"], ["2025-06-01"]] : List (List String)).countP
          (fun r => ! _row_in_period 0 2025 5 r) :=
  (c8_amended_roundtrip [["StartTime"], ["2025-05-01"], ["2025-06-01"]] "calls"
    2025 5 0 (Or.inr rfl) (by decide) (by decide)).1

/-- C3 counterexample: the cell `05/31/2025` is parsed by step (c) of
the ordered fallback chain (the chain as implemented in
`_extract_row_datetime`), yielding May 2025 — yet `check_csv_month_year`
and `find_out_of_month_rows`, which only run the `YYYY-MM-DD` regex,
treat the row as out-of-range for May 2025. -/
theorem c3_counterexample_mdy_cell :
    rowDatetimeChainYM "05/31/2025" = some (2025, 5)
    ∧ _ym_from_any_date "05/31/2025" = none
    ∧ find_out_of_month_rows (some [["StartTime"], ["05/31/2025"]]) "calls" 2025 5
      = [(2, "05/31/2025")]
    ∧ check_csv_month_year (some [["StartTime"], ["05/31/2025"]]) "calls" 2025 5
      = (false, ⟨0, 1, 1⟩) := by
  refine ⟨by decide, by decide, by decide, by decide⟩

/-- C3 amended: in `check_csv_month_year` and `find_out_of_month_rows`
the date cell is parsed solely by extracting a literal `YYYY-MM-DD`
substring anywhere in the cell (which also covers direct ISO 8601
date-times); a cell with no such substring — including cells in
`MM/DD/YYYY` / `M/D/YY` form, which only the aggregation-side chain of
`_extract_row_datetime` accepts — is treated as out-of-range: the row
is listed by `find_out_of_month_rows` (with its 1-based row number) and
counted out-of-period by `check_csv_month_year`'s row test. -/
theorem c3_amended_ymd_substring_only (rows : List (List String)) (kind : String)
    (year month ci j : Nat) (row : List String)
    (hidx : _date_col_index (rows.headD []) kind = some ci)
    (hrow : rows.tail.get? j = some row)
    (hnone : _ym_from_any_date (row.getD ci "") = none) :
    ((j + 2, row.getD ci "") ∈ find_out_of_month_rows (some rows) kind year month)
    ∧ _row_in_period ci year month row = false := by
  have hclass : _row_in_period ci year month row = false := by
    unfold _row_in_period _ym_from_cell
    rw [hnone]
  refine ⟨?_, hclass⟩
  simp only [find_out_of_month_rows, hidx]
  rw [List.mem_filterMap]
  refine ⟨(2 + j, row), ?_, ?_⟩
  · apply List.get?_mem (n := j)
    rw [List.get?_enumFrom, hrow]
    rfl
  · simp [hclass, Nat.add_comm]

/-! ## Claim C1 — billed units per messages row -/

/-- C1 counterexample: a row whose `NumSegments` cell parses to the
integer 0 contributes 0 billed units, not the 1 unit the default-to-one
policy claims (`_ceil_div2(0) = 0`; only an absent or unparseable
segment column defaults to 1). -/
theorem c1_counterexample_zero_segments :
    _seg_parse [("NumSegments", "0")] = some 0
    ∧ rowBilledUnits [("NumSegments", "0")] = 0
    ∧ rowBilledUnits [("NumSegments", "0")] ≠ 1 := by
  refine ⟨by decide, by decide, by decide⟩

/-- C1 amended: an in-period messages row whose segment count parses to
`n ≥ 1` contributes exactly `⌈n/2⌉` billed units (characterized by
`n ≤ 2b < n + 2`); a row whose segment column is absent or unparseable
contributes exactly 1; a row whose segment count parses to 0 contributes
0 (not 1). -/
theorem c1_amended_billed_units (row : List (String × String)) :
    (∀ n : Int, _seg_parse row = some n → 1 ≤ n →
        n ≤ 2 * rowBilledUnits row ∧ 2 * rowBilledUnits row < n + 2)
    ∧ (_seg_parse row = none → rowBilledUnits row = 1)
    ∧ (_seg_parse row = some 0 → rowBilledUnits row = 0) := by
  refine ⟨?_, ?_, ?_⟩
  · intro n hparse hn
    unfold rowBilledUnits _extract_num_segments _ceil_div2
    rw [hparse]
    simp only [Option.getD_some]
    rw [if_neg (by omega)]
    omega
  · intro hparse
    unfold rowBilledUnits _extract_num_segments _ceil_div2
    rw [hparse]
    rfl
  · intro hparse
    unfold rowBilledUnits _extract_num_segments _ceil_div2
    rw [hparse]
    rfl

/-- Witness for the amended C1: rows with `NumSegments` 3 (two billed
units), a missing column (one unit), and 0 (zero units). -/
theorem c1_amended_billed_units_witness :
    (_seg_parse [("NumSegments", "3")] = some 3
      ∧ (3 : Int) ≤ 2 * rowBilledUnits [("NumSegments", "3")]
      ∧ 2 * rowBilledUnits [("NumSegments", "3")] < 3 + 2)
    ∧ (_seg_parse [("Body", "hi")] = none ∧ rowBilledUnits [("Body", "hi")] = 1)
    ∧ (_seg_parse [("NumSegments", "0")] = some 0
      ∧ rowBilledUnits [("NumSegments", "0")] = 0) :=
  ⟨⟨by decide,
    ((c1_amended_billed_units [("NumSegments", "3")]).1 3 (by decide) (by decide)).1,
    ((c1_amended_billed_units [("NumSegments", "3")]).1 3 (by decide) (by decide)).2⟩,
   ⟨by decide, (c1_amended_billed_units [("Body", "hi")]).2.1 (by decide)⟩,
   ⟨by decide, (c1_amended_billed_units [("NumSegments", "0")]).2.2 (by decide)⟩⟩

/-! ## Claims C2, C4 — aggregation error handling and ordering -/

/-- Helper: an unreadable file anywhere in the batch leaves the
messages accumulation unchanged. -/
theorem msgAccum_skips_unreadable (fs : FileSystem) (year month : Nat)
    (p : String) (s : Option String) (l2 : List (String × Option String))
    (hp : fs p = none) :
    ∀ (l1 : List (String × Option String)) (acc : List (String × Int)),
      msgAccum fs year month (l1 ++ (p, s) :: l2) acc
        = msgAccum fs year month (l1 ++ l2) acc := by
  intro l1
  induction l1 with
  | nil =>
    intro acc
    simp only [List.nil_append, msgAccum, hp]
  | cons hd t ih =>
    intro acc
    obtain ⟨q, r⟩ := hd
    simp only [List.cons_append, msgAccum]
    cases hq : fs q <;> simp [ih]

/-- Helper: an unreadable file anywhere in the batch makes the voice
accumulation raise. -/
theorem voiceAccum_unreadable_errors (fs : FileSystem) (oy om : Option Nat)
    (p : String) (s : Option String) (l2 : List (String × Option String))
    (hp : fs p = none) :
    ∀ (l1 : List (String × Option String)) (acc : List (String × Int)),
      voiceAccum fs oy om (l1 ++ (p, s) :: l2) acc = Except.error () := by
  intro l1
  induction l1 with
  | nil =>
    intro acc
    have hcount : (if voiceTruthy oy && voiceTruthy om
        then count_rows_calls_csv fs p oy om
        else count_rows_calls_csv fs p none none) = Except.error () := by
      by_cases h : voiceTruthy oy && voiceTruthy om <;>
        simp [h, count_rows_calls_csv, hp]
    simp only [List.nil_append, voiceAccum, hcount]
  | cons hd t ih =>
    intro acc
    obtain ⟨q, r⟩ := hd
    simp only [List.cons_append, voiceAccum]
    cases hq : (if voiceTruthy oy && voiceTruthy om
        then count_rows_calls_csv fs q oy om
        else count_rows_calls_csv fs q none none) with
    | error e => cases e; rfl
    | ok qty => simp [ih]

/-- C2 counterexample: a single unreadable calls CSV makes
`aggregate_voice_items_from_csvs` raise (the embedding's
`Except.error ()`), aborting the batch instead of skipping the file —
the voice path has no per-file recovery. -/
theorem c2_counterexample_voice_aborts :
    aggregate_voice_items_from_csvs fsAllUnreadable [("bad.csv", some "Site A")] none none
      = Except.error () := by
  rfl

/-- C2 amended: only the messages aggregation
(`_sum_billed_units_by_site`) recovers from an unreadable file — the
file is skipped with zero contribution, wherever it sits in the batch,
and the remaining files aggregate exactly as if it were absent; the
voice aggregation (`aggregate_voice_items_from_csvs` via
`count_rows_calls_csv`) instead propagates the exception and aborts the
whole batch. -/
theorem c2_amended_unreadable_handling (fs : FileSystem)
    (l1 l2 : List (String × Option String)) (p : String) (s : Option String)
    (year month : Nat) (oy om : Option Nat) (hp : fs p = none) :
    _sum_billed_units_by_site fs (l1 ++ (p, s) :: l2) year month
      = _sum_billed_units_by_site fs (l1 ++ l2) year month
    ∧ aggregate_voice_items_from_csvs fs (l1 ++ (p, s) :: l2) oy om
      = Except.error () := by
  constructor
  · exact msgAccum_skips_unreadable fs year month p s l2 hp l1 []
  · unfold aggregate_voice_items_from_csvs
    rw [voiceAccum_unreadable_errors fs oy om p s l2 hp l1 []]

/-- Witness for the amended C2: the batch holds one readable messages
CSV and one unreadable path. -/
theorem c2_amended_unreadable_handling_witness :
    fsMsgOneRow "bad.csv" = none
    ∧ _sum_billed_units_by_site fsMsgOneRow
        [("m.csv", some "S"), ("bad.csv", some "T")] 2025 5
      = _sum_billed_units_by_site fsMsgOneRow [("m.csv", some "S")] 2025 5
    ∧ aggregate_voice_items_from_csvs fsMsgOneRow
        [("m.csv", some "S"), ("bad.csv", some "T")] (some 2025) (some 5)
      = Except.error () :=
  ⟨rfl,
   (c2_amended_unreadable_handling fsMsgOneRow [("m.csv", some "S")] [] "bad.csv"
      (some "T") 2025 5 (some 2025) (some 5) rfl).1,
   (c2_amended_unreadable_handling fsMsgOneRow [("m.csv", some "S")] [] "bad.csv"
      (some "T") 2025 5 (some 2025) (some 5) rfl).2⟩

/-- C4 counterexample: a calls CSV with zero in-period rows still emits
a line item — with quantity 0 — contradicting the claim that exactly
the labels with quantity > 0 receive an item.  (Neither builder takes
the registry as an input at all, so no registry-first ordering can
occur either.) -/
theorem c4_counterexample_zero_qty_item :
    aggregate_voice_items_from_csvs fsVoiceHeaderOnly [("a.csv", some "A")] none none
      = Except.ok [⟨"A Voice", 0⟩] := by
  rfl

/-- C4 amended: both builders order purely lexicographically by site
label (the registry is not an input, so registry traversal order plays
no role): `add_message_items_to_invoice` emits one item per
positive-quantity site of the aggregated map, in sorted label order,
and `aggregate_voice_items_from_csvs` emits one item per aggregated
label — zero quantities included — in sorted label order. -/
theorem c4_amended_lexicographic_items (fs : FileSystem)
    (files : List (String × Option String)) (year month : Nat) (oy om : Option Nat) :
    add_message_items_to_invoice fs files year month
      = (sortByKey (_sum_billed_units_by_site fs files year month)).filterMap mkMsgItem
    ∧ List.Sorted keyLe
        (sortByKey (_sum_billed_units_by_site fs files year month))
    ∧ (sortByKey (_sum_billed_units_by_site fs files year month)).Perm
        (_sum_billed_units_by_site fs files year month)
    ∧ (∀ it ∈ add_message_items_to_invoice fs files year month, 0 < it.qty)
    ∧ (∀ by_site, voiceAccum fs oy om files [] = Except.ok by_site →
        aggregate_voice_items_from_csvs fs files oy om
          = Except.ok ((sortByKey by_site).map (fun kv =>
              build_voice_line_item (if kv.1 = "" then none else some kv.1) kv.2))
        ∧ List.Sorted keyLe (sortByKey by_site)
        ∧ (sortByKey by_site).Perm by_site) := by
  refine ⟨rfl, List.sorted_insertionSort _ _, List.perm_insertionSort _ _, ?_, ?_⟩
  · intro it hit
    obtain ⟨kv, _, hmk⟩ := List.mem_filterMap.mp hit
    unfold mkMsgItem at hmk
    by_cases h : kv.2 ≤ 0
    · simp [h] at hmk
    · rw [if_neg h] at hmk
      dsimp only at hmk
      split_ifs at hmk <;> (injection hmk with hmk; subst hmk; show 0 < kv.2; omega)
  · intro by_site hok
    refine ⟨?_, List.sorted_insertionSort _ _, List.perm_insertionSort _ _⟩
    unfold aggregate_voice_items_from_csvs
    rw [hok]

/-- Witness for the amended C4: the sorted output of a two-file voice
batch whose insertion order is reversed relative to label order. -/
theorem c4_amended_lexicographic_items_witness :
    aggregate_voice_items_from_csvs fsVoiceOneRow
        [("a.csv", some "B"), ("a.csv", some "A")] (some 2025) (some 5)
      = Except.ok [⟨"A Voice", 1⟩, ⟨"B Voice", 1⟩] := by
  have h := (c4_amended_lexicographic_items fsVoiceOneRow
      [("a.csv", some "B"), ("a.csv", some "A")] 2025 5 (some 2025) (some 5)).2.2.2.2
      [("B", 1), ("A", 1)] (by rfl)
  rw [h.1]
  rfl

/-! ## Claim C5 — exact phone match by last-4 -/

/-- Helper: a guarded `findSome?` over mapped values is a `find?`. -/
theorem findSome?_guard_eq_find?_map {α β : Type} (g : α → β) (p : β → Bool) (l : List α) :
    l.findSome? (fun a => if p (g a) then some (g a) else none) = (l.map g).find? p := by
  induction l with
  | nil => rfl
  | cons a t ih =>
    by_cases h : p (g a) <;>
      simp [List.findSome?_cons, List.find?_cons, h, ih]

/-- Helper: a nested `findSome?` agreeing with `find?` piecewise is a
`find?` over the flattened list. -/
theorem findSome?_eq_find?_flatMap {α β : Type} (f : α → Option β) (g : α → List β)
    (p : β → Bool) (l : List α) (h : ∀ a, f a = (g a).find? p) :
    l.findSome? f = (l.flatMap g).find? p := by
  induction l with
  | nil => rfl
  | cons a t ih =>
    simp only [List.findSome?_cons, List.flatMap_cons, List.find?_append, h a, ih]
    cases (g a).find? p <;> simp

/-- Helper: `_match_site_by_last4`'s nested loops return the first
matching site of the flattened client → division → site traversal. -/
theorem match_site_eq_find?_crumbs (clients_doc : List Client) (last4 : String) :
    clients_doc.findSome? (fun c =>
      c.divisions.findSome? (fun d =>
        d.sites.findSome? (fun s =>
          if pyStrEndsWith (_digits_only s.phone) last4 then
            some (⟨c.name, d.name, s.name, _digits_only s.phone, last4⟩ : Crumb)
          else none)))
      = (crumbsOf clients_doc last4).find?
          (fun cr => pyStrEndsWith cr.site_phone last4) := by
  unfold crumbsOf
  apply findSome?_eq_find?_flatMap
  intro c
  apply findSome?_eq_find?_flatMap
  intro d
  exact findSome?_guard_eq_find?_map
    (fun s => (⟨c.name, d.name, s.name, _digits_only s.phone, last4⟩ : Crumb))
    (fun cr => pyStrEndsWith cr.site_phone last4) d.sites

/-- Helper: ending with the last 4 characters of a ≥4-digit identifier
is the same as having equal last-4s. -/
theorem pyStrEndsWith_last4_iff (t pd : String) (h4 : 4 ≤ pd.data.length) :
    pyStrEndsWith t (pyLast4 pd) = true ↔ pyLast4 t = pyLast4 pd := by
  have hlen : (pd.data.drop (pd.data.length - 4)).length = 4 := by
    rw [List.length_drop]; omega
  show (pd.data.drop (pd.data.length - 4)).isSuffixOf t.data = true ↔ _
  rw [List.isSuffixOf_iff_suffix, List.suffix_iff_eq_drop, hlen]
  unfold pyLast4
  rw [String.ext_iff]
  show _ ↔ t.data.drop (t.data.length - 4) = pd.data.drop (pd.data.length - 4)
  exact eq_comm

/-- C5 counterexample: identifier `309` (fewer than 4 digits).  The
code's `endswith` test lets site phone `12309` match, although the
site phone's trailing 4 digits (`2309`) do not equal the identifier's
trailing digits (`309`), so "match precisely when the trailing 4 digits
are equal" fails for short identifiers. -/
theorem c5_counterexample_short_identifier :
    (_match_site_by_last4 [⟨"C", [⟨"D", [⟨"S", "12309"⟩]⟩]⟩] "309").isSome = true
    ∧ pyLast4 (_digits_only "12309") ≠ pyLast4 "309" := by
  refine ⟨by decide, by decide⟩

/-- C5 amended: for identifiers with at least 4 digits the claim holds
verbatim — the match succeeds precisely when some registry site's
digit-normalized phone has trailing 4 digits equal to the identifier's
trailing 4 — and the returned breadcrumb is the first qualifying site
of the client → division → site traversal (hence repeated runs are
reproducible).  Identifiers shorter than 4 digits instead match any
site phone merely ending in all of the identifier's digits. -/
theorem c5_amended_last4_match (clients_doc : List Client) (pd : String)
    (h4 : 4 ≤ pd.data.length) :
    ((_match_site_by_last4 clients_doc pd).isSome = true
      ↔ ∃ c ∈ clients_doc, ∃ d ∈ c.divisions, ∃ s ∈ d.sites,
          pyLast4 (_digits_only s.phone) = pyLast4 pd)
    ∧ _match_site_by_last4 clients_doc pd
      = (crumbsOf clients_doc (pyLast4 pd)).find?
          (fun cr => pyStrEndsWith cr.site_phone (pyLast4 pd)) := by
  have hne : ¬ pd = "" := by
    intro h
    rw [h] at h4
    simp at h4
  have hmain : _match_site_by_last4 clients_doc pd
      = (crumbsOf clients_doc (pyLast4 pd)).find?
          (fun cr => pyStrEndsWith cr.site_phone (pyLast4 pd)) := by
    unfold _match_site_by_last4
    rw [if_neg hne]
    exact match_site_eq_find?_crumbs clients_doc (pyLast4 pd)
  refine ⟨?_, hmain⟩
  rw [hmain, List.find?_isSome]
  constructor
  · rintro ⟨cr, hmem, hp⟩
    simp only [crumbsOf, List.mem_flatMap, List.mem_map] at hmem
    obtain ⟨c, hc, d, hd, s, hs, rfl⟩ := hmem
    exact ⟨c, hc, d, hd, s, hs, (pyStrEndsWith_last4_iff _ pd h4).mp hp⟩
  · rintro ⟨c, hc, d, hd, s, hs, heq⟩
    refine ⟨⟨c.name, d.name, s.name, _digits_only s.phone, pyLast4 pd⟩, ?_, ?_⟩
    · simp only [crumbsOf, List.mem_flatMap, List.mem_map]
      exact ⟨c, hc, d, hd, s, hs, rfl⟩
    · exact (pyStrEndsWith_last4_iff _ pd h4).mpr heq

/-- Witness for the amended C5: the spec's scenario.  Site phone
`555-867-5309` matches identifier `8675309` via last-4 `5309`; site
phone `555-867-0000` does not. -/
theorem c5_amended_last4_match_witness :
    4 ≤ ("8675309" : String).data.length
    ∧ ((_match_site_by_last4 [⟨"Client A", [⟨"Division A", [⟨"Jenny", "555-867-5309"⟩]⟩]⟩]
          "8675309").isSome = true
        ↔ ∃ c ∈ [(⟨"Client A", [⟨"Division A", [⟨"Jenny", "555-867-5309"⟩]⟩]⟩ : Client)],
            ∃ d ∈ c.divisions, ∃ s ∈ d.sites,
              pyLast4 (_digits_only s.phone) = pyLast4 "8675309")
    ∧ (_match_site_by_last4 [⟨"Client A", [⟨"Division A", [⟨"Jenny", "555-867-5309"⟩]⟩]⟩]
        "8675309").isSome = true
    ∧ _match_site_by_last4 [⟨"Client A", [⟨"Division A", [⟨"Desk", "555-867-0000"⟩]⟩]⟩]
        "8675309" = none :=
  ⟨by decide,
   (c5_amended_last4_match [⟨"Client A", [⟨"Division A", [⟨"Jenny", "555-867-5309"⟩]⟩]⟩]
      "8675309" (by decide)).1,
   by decide, by decide⟩

/-! ## Claim C9 — decoration idempotence -/

/-- C9 counterexample: full idempotence fails.  With no resolvable
phones, decorating the undecorated description `Foo SMS SMS` strips one
trailing kind token per pass — the first pass returns `Foo SMS`, the
second `Foo` — so `decorate(decorate(x)) ≠ decorate(x)`. -/
theorem c9_counterexample_kind_stripping :
    decorate_with_last4_kind invEmpty "Foo SMS SMS" = "Foo SMS"
    ∧ decorate_with_last4_kind invEmpty (decorate_with_last4_kind invEmpty "Foo SMS SMS")
      = "Foo"
    ∧ decorate_with_last4_kind invEmpty (decorate_with_last4_kind invEmpty "Foo SMS SMS")
      ≠ decorate_with_last4_kind invEmpty "Foo SMS SMS" := by
  refine ⟨by decide, by decide, by decide⟩

/-- C9 amended: decoration is the identity on any description already
ending in a `(-DDD)`/`(-DDDD)` suffix (the guard regex admits 3 or 4
digits), for every invoice — and hence `decorate(decorate(x)) =
decorate(x)` for every such already-decorated `x`.  Unrestricted
idempotence fails (see the counterexample): each pass strips one
trailing kind token from undecorated descriptions it cannot resolve. -/
theorem c9_amended_idempotent_on_decorated (inv : Inv) (desc : String)
    (h : hasDecorSuffix desc = true) :
    decorate_with_last4_kind inv desc = desc
    ∧ decorate_with_last4_kind inv (decorate_with_last4_kind inv desc)
      = decorate_with_last4_kind inv desc := by
  have h1 : decorate_with_last4_kind inv desc = desc := by
    unfold decorate_with_last4_kind
    by_cases hb : pyStrip desc = ""
    · rw [if_pos hb]
    · rw [if_neg hb, if_pos h]
  refine ⟨h1, ?_⟩
  rw [h1]
  exact h1

/-- Witness for the amended C9: a decorated description. -/
theorem c9_amended_idempotent_on_decorated_witness :
    hasDecorSuffix "Lobby (-1234)" = true
    ∧ decorate_with_last4_kind invEmpty "Lobby (-1234)" = "Lobby (-1234)"
    ∧ decorate_with_last4_kind invEmpty
        (decorate_with_last4_kind invEmpty "Lobby (-1234)")
      = decorate_with_last4_kind invEmpty "Lobby (-1234)" :=
  ⟨by decide,
   (c9_amended_idempotent_on_decorated invEmpty "Lobby (-1234)" (by decide)).1,
   (c9_amended_idempotent_on_decorated invEmpty "Lobby (-1234)" (by decide)).2⟩

/-- Witness for the amended C3: an `M/D/YY` cell in a calls CSV. -/
theorem c3_amended_ymd_substring_only_witness :
    ((0 + 2, "5/31/25") ∈
      find_out_of_month_rows (some [["StartTime"], ["5/31/25"]]) "calls" 2025 5)
    ∧ _row_in_period 0 2025 5 ["5/31/25"] = false :=
  c3_amended_ymd_substring_only [["StartTime"], ["5/31/25"]] "calls" 2025 5 0 0
    ["5/31/25"] (by decide) rfl (by decide)

end Invoicing
